import Mathlib

/-!
Shallow embedding of the Letterboxd scraping service
(`routes/api/letterboxd-schema.js`): the pure parsing helpers
(star ratings, name/year splitting, avatar URL rewriting, `parseInt`),
the in-memory job store with its HTTP handlers, and a trace model of a
single orchestrator run, together with theorems checking the
specification's claims against these definitions.
-/

namespace Letterboxd

/-- Character class of JavaScript whitespace: the set matched by `\s`
and stripped by `String.prototype.trim`. -/
def jsWhite (c : Char) : Bool :=
  let n := c.toNat
  n == 32 || n == 9 || n == 10 || n == 11 || n == 12 || n == 13 ||
  n == 0xA0 || n == 0x1680 || (decide (0x2000 ≤ n) && decide (n ≤ 0x200A)) ||
  n == 0x2028 || n == 0x2029 || n == 0x202F || n == 0x205F ||
  n == 0x3000 || n == 0xFEFF

/-- JS `trim()` on a character list: drop whitespace from both ends. -/
def jsTrimList (l : List Char) : List Char :=
  ((l.dropWhile jsWhite).reverse.dropWhile jsWhite).reverse

/-- JS `String.prototype.trim`. -/
def jsTrim (s : String) : String := ⟨jsTrimList s.data⟩

/-- Number of full-star glyphs in a rating text, as in
`(ratingText.match(/★/g) || []).length`. -/
def starCount (s : String) : Nat := s.data.count '★'

/-- Whether the half-star glyph occurs, as in `ratingText.includes("½")`. -/
def hasHalfStar (s : String) : Bool := s.data.contains '½'

/-- Rating parse from `startScraping`: `0` for empty (falsy) text,
otherwise the number of `★` glyphs plus `0.5` when a `½` glyph is
present. -/
def parseRating (s : String) : ℚ :=
  if s = "" then 0
  else (starCount s : ℚ) + (if hasHalfStar s then 1/2 else 0)

/-- The end-anchored regex `/\s\((\d{4})\)$/` of `startScraping`:
returns `some (whole, year)` exactly when the string ends in a
whitespace character followed by a four-digit parenthesized year;
`whole` is the seven-character matched text (`yearMatch[0]`) and `year`
the captured digit group (`yearMatch[1]`). -/
def yearSuffixMatch (s : String) : Option (String × String) :=
  match s.data.drop (s.data.length - 7) with
  | [w, c1, d1, d2, d3, d4, c2] =>
    if jsWhite w && (c1 == '(') && d1.isDigit && d2.isDigit &&
        d3.isDigit && d4.isDigit && (c2 == ')') then
      some (⟨[w, c1, d1, d2, d3, d4, c2]⟩, ⟨[d1, d2, d3, d4]⟩)
    else none
  | _ => none

/-- Index of the first occurrence of `needle` in `hay`, the position at
which JS `String.prototype.replace` with a plain-string pattern
rewrites. -/
def firstIdx (needle : List Char) : List Char → Option Nat
  | [] => if needle = [] then some 0 else none
  | c :: rest =>
    if needle.isPrefixOf (c :: rest) then some 0
    else (firstIdx needle rest).map (· + 1)

/-- JS `hay.replace(needle, "")` for a plain-string `needle`: remove the
first occurrence of `needle`, if any. -/
def removeFirst (hay needle : List Char) : List Char :=
  match firstIdx needle hay with
  | none => hay
  | some i => hay.take i ++ hay.drop (i + needle.length)

/-- Name/year split from `startScraping`: on a year-suffix match, `year`
is the captured digit group and `name` is the input with the first
occurrence of the matched text removed
(`nameWithYear.replace(yearMatch[0], "")`) and then trimmed; with no
match, `name` is the input unchanged and `year` is null. -/
def parseNameYear (nameWithYear : String) : String × Option String :=
  match yearSuffixMatch nameWithYear with
  | none => (nameWithYear, none)
  | some (whole, y) =>
    (jsTrim ⟨removeFirst nameWithYear.data whole.data⟩, some y)

/-- Numeric value of a character as a base-`b` digit (`b` is 10 or 16),
as JS `parseInt` accepts digits. -/
def digitVal? (b : Nat) (c : Char) : Option Nat :=
  let n := c.toNat
  if 48 ≤ n ∧ n ≤ 57 ∧ n - 48 < b then some (n - 48)
  else if b = 16 ∧ 97 ≤ n ∧ n ≤ 102 then some (n - 87)
  else if b = 16 ∧ 65 ≤ n ∧ n ≤ 70 then some (n - 55)
  else none

/-- Value of the longest leading run of base-`b` digits; `none` when the
run is empty (JS `parseInt` yields `NaN`). -/
def parseRadix (b : Nat) (l : List Char) : Option Nat :=
  let ds := l.takeWhile (fun c => (digitVal? b c).isSome)
  if ds = [] then none
  else some (ds.foldl (fun a c => a * b + (digitVal? b c).getD 0) 0)

/-- Unsigned part of JS `parseInt` with no radix argument: a `0x`/`0X`
head switches to hexadecimal, anything else is decimal. -/
def jsParseIntUnsigned : List Char → Option Nat
  | '0' :: 'x' :: t => parseRadix 16 t
  | '0' :: 'X' :: t => parseRadix 16 t
  | t => parseRadix 10 t

/-- JS `parseInt(s)`: skip leading whitespace, read an optional sign,
then the unsigned part; `none` models `NaN`. -/
def jsParseInt (s : String) : Option Int :=
  match s.data.dropWhile jsWhite with
  | '-' :: t => (jsParseIntUnsigned t).map (fun n => -(n : Int))
  | '+' :: t => (jsParseIntUnsigned t).map (fun n => (n : Int))
  | t => (jsParseIntUnsigned t).map (fun n => (n : Int))

/-- Total-page determination from `startScraping`: the text of the last
`.paginate-pages li a` entry, trimmed and fed to `parseInt`; an absent
list or a text that does not parse leaves the default of `1`. -/
def totalPagesOf (paginationTexts : List String) : Int :=
  match paginationTexts.getLast? with
  | none => 1
  | some lastText =>
    match jsParseInt (jsTrim lastText) with
    | none => 1
    | some n => n

/-- Match of the regex tail `\d+-\d+-\d+-\d+-crop` at the head of `l`,
with `g` digit groups still to read: the number of characters matched.
Digit runs are maximal, which agrees with the regex's greedy `\d+`
because a digit can never satisfy the following literal `-`. -/
def cropGroups : Nat → List Char → Option Nat
  | 0, l => if ("crop".data).isPrefixOf l then some 4 else none
  | g + 1, l =>
    let ds := l.takeWhile Char.isDigit
    if ds = [] then none
    else
      match l.drop ds.length with
      | '-' :: rest => (cropGroups g rest).map (fun m => ds.length + 1 + m)
      | _ => none

/-- Match of the avatar crop regex `/\/avtr-\d+-\d+-\d+-\d+-crop/` at
the head of `l`: the length of the matched text. -/
def cropMatchAt (l : List Char) : Option Nat :=
  if ("/avtr-".data).isPrefixOf l then
    (cropGroups 4 (l.drop 6)).map (fun m => m + 6)
  else none

/-- Leftmost match of the avatar crop regex anywhere in `l`: start index
and length. -/
def cropFind : List Char → Option (Nat × Nat)
  | [] => none
  | c :: rest =>
    match cropMatchAt (c :: rest) with
    | some len => some (0, len)
    | none => (cropFind rest).map (fun p => (p.1 + 1, p.2))

/-- Avatar URL rewrite from `scrapeProfile`:
`src.replace(/\/avtr-\d+-\d+-\d+-\d+-crop/, "/avtr-0-1000-0-1000-crop")`,
substituting for the first match and leaving non-matching input
unchanged. -/
def rewriteAvatar (s : String) : String :=
  match cropFind s.data with
  | none => s
  | some (i, len) =>
    ⟨s.data.take i ++ ("/avtr-0-1000-0-1000-crop").data ++ s.data.drop (i + len)⟩

/-- Job status enum (`pending`, `in-progress`, `completed`, `failed`). -/
inductive JobStatus
  | pending
  | inProgress
  | completed
  | failed
  deriving DecidableEq

/-- One scraped film record, as pushed onto `job.data`
(`{ Name, Year, "Letterboxd URI", Rating }`). -/
structure FilmRecord where
  Name : String
  Year : Option String
  letterboxdURI : String
  Rating : ℚ
  deriving DecidableEq

/-- The four profile statistics. -/
structure ProfileStats where
  totalFilms : Int
  filmsThisYear : Int
  following : Int
  followers : Int
  deriving DecidableEq

/-- A profile summary, as `scrapeProfile` returns it. -/
structure ProfileSummary where
  displayName : String
  username : String
  avatarUrl : Option String
  location : Option String
  bio : Option String
  stats : ProfileStats
  deriving DecidableEq

/-- The raw values `scrapeProfile` reads off a successfully loaded
profile page: element texts are (possibly empty) `.text()` results,
attributes are `none` when the element or attribute is absent. -/
structure ProfilePage where
  displayNameText : String
  tooltipUsername : Option String
  avatarSrc : Option String
  locationText : String
  bioText : String
  totalFilmsText : String
  filmsThisYearText : String
  followingText : String
  followersText : String
  deriving DecidableEq

/-- JS `attr || fallback` for an optional string attribute: an absent
attribute and an empty string are both falsy. -/
def orElseStr (a : Option String) (b : String) : String :=
  match a with
  | some s => if s = "" then b else s
  | none => b

/-- JS `text().trim() || null`. -/
def textOrNull (s : String) : Option String :=
  let t := jsTrim s
  if t = "" then none else some t

/-- One profile statistic: `.text().trim().replace(/,/g, "")` fed to
`parseInt`, with `|| 0` collapsing `NaN` (and `0`) to `0`. -/
def statOf (s : String) : Int :=
  match jsParseInt ⟨(jsTrim s).data.filter (fun c => !(c == ','))⟩ with
  | none => 0
  | some n => n

/-- The extraction body of `scrapeProfile` on a loaded page. -/
def extractProfile (username : String) (p : ProfilePage) : ProfileSummary :=
  { displayName := jsTrim p.displayNameText
    username := orElseStr p.tooltipUsername username
    avatarUrl := p.avatarSrc.map (fun src => if src = "" then src else rewriteAvatar src)
    location := textOrNull p.locationText
    bio := textOrNull p.bioText
    stats :=
      { totalFilms := statOf p.totalFilmsText
        filmsThisYear := statOf p.filmsThisYearText
        following := statOf p.followingText
        followers := statOf p.followersText } }

/-- The degraded summary built by `scrapeProfile`'s catch block. -/
def degradedProfile (username : String) : ProfileSummary :=
  { displayName := username
    username := username
    avatarUrl := none
    location := none
    bio := none
    stats := { totalFilms := 0, filmsThisYear := 0, following := 0, followers := 0 } }

/-- `scrapeProfile`: the navigation/extraction either yields a loaded
page or raises (`Except.error` carries the exception message); the
surrounding `try`/`catch` absorbs every exception into the degraded
summary, so the function always returns a `ProfileSummary`. -/
def scrapeProfile (username : String) (outcome : Except String ProfilePage) :
    ProfileSummary :=
  match outcome with
  | .ok p => extractProfile username p
  | .error _ => degradedProfile username

/-- One job record of the `scrapingJobs` map. -/
structure Job where
  status : JobStatus
  data : List FilmRecord
  profileData : Option ProfileSummary
  progress : ℚ
  totalPages : Int
  error : Option String
  deriving DecidableEq

/-- The fresh job inserted by the submission handler. -/
def initialJob : Job :=
  { status := .pending, data := [], profileData := none
    progress := 0, totalPages := 1, error := none }

/-- The in-memory `scrapingJobs` map, keyed by job id. -/
abbrev Store := List (String × Job)

/-- `scrapingJobs.get(k)`. -/
def storeGet (store : Store) (k : String) : Option Job :=
  match store with
  | [] => none
  | (k', v) :: rest => if k' = k then some v else storeGet rest k

/-- `scrapingJobs.set(k, v)`: overwrite an existing key, append a new
one. -/
def storeSet (store : Store) (k : String) (v : Job) : Store :=
  match store with
  | [] => [(k, v)]
  | (k', v') :: rest =>
    if k' = k then (k, v) :: rest else (k', v') :: storeSet rest k v

/-- Little-endian decimal digits of a natural number, with enough fuel
(any `fuel > n` suffices, mirroring core's `Nat.toDigitsCore`). -/
def natDigs (fuel n : Nat) : List Char :=
  match fuel with
  | 0 => []
  | fuel + 1 =>
    if n < 10 then [Nat.digitChar n]
    else Nat.digitChar (n % 10) :: natDigs fuel (n / 10)

/-- JS stringification of the integer value of `Date.now()`. -/
def natToString (n : Nat) : String := ⟨(natDigs (n + 1) n).reverse⟩

/-- Value of a little-endian list of decimal digit characters; used to
show decimal stringification is injective. -/
def digsVal : List Char → Nat
  | [] => 0
  | c :: t => (c.toNat - 48) + 10 * digsVal t

/-- The job id built at submission: `` `job_${Date.now()}` ``. -/
def mkJobId (now : Nat) : String := "job_" ++ natToString now

/-- Body of a successful submission response. -/
structure SubmitBody where
  jobId : String
  status : JobStatus
  message : String
  deriving DecidableEq

/-- Reply of the submission endpoint. -/
inductive SubmitReply
  | ok (body : SubmitBody)
  | badRequest (message : String)
  deriving DecidableEq

/-- The `POST /` handler: validate the username, insert a fresh job
under a timestamp-derived id, spawn the scrape in the background, and
reply with the id and `pending`; `now` is the `Date.now()` value
observed by this request. -/
def submitHandler (store : Store) (username : String) (now : Nat) :
    SubmitReply × Store :=
  if username = "" then (.badRequest "Username is required.", store)
  else
    let jobId := mkJobId now
    (.ok { jobId := jobId, status := .pending, message := "Scraping started" },
     storeSet store jobId initialJob)

/-- Body of a successful status response. -/
structure StatusBody where
  status : JobStatus
  progress : ℚ
  totalPages : Int
  data : List FilmRecord
  profileData : Option ProfileSummary
  error : Option String
  deriving DecidableEq

/-- Reply of the status endpoint. -/
inductive StatusReply
  | ok (body : StatusBody)
  | badRequest (message : String)
  deriving DecidableEq

/-- The `GET /` handler: a missing (empty) or unknown job id is a 400;
otherwise a snapshot of the job, with `data` exposed only once the job
is completed. -/
def getStatusHandler (store : Store) (jobId : String) : StatusReply :=
  match (if jobId = "" then none else storeGet store jobId) with
  | none => .badRequest "Invalid job ID"
  | some job =>
    .ok { status := job.status
          progress := job.progress
          totalPages := job.totalPages
          data := if job.status = .completed then job.data else []
          profileData := job.profileData
          error := job.error }

/-- One `li.griditem` as the crawler reads it: whether the
`div.react-component` data container exists, its `data-item-name` and
`data-item-slug` attributes, and the trimmed rating text. -/
structure RawItem where
  containerPresent : Bool
  itemName : Option String
  itemSlug : Option String
  ratingText : String
  deriving DecidableEq

/-- The film record built for one grid item. -/
def mkFilmRecord (nameWithYear slug ratingText : String) : FilmRecord :=
  let ny := parseNameYear nameWithYear
  { Name := ny.1
    Year := ny.2
    letterboxdURI := "https://letterboxd.com" ++ slug
    Rating := parseRating ratingText }

/-- Per-item body of the crawler's `each` callback: an item with a
missing data container or a falsy name or slug is skipped. -/
def parseFilm (it : RawItem) : Option FilmRecord :=
  if it.containerPresent then
    match it.itemName, it.itemSlug with
    | some nm, some sl =>
      if nm = "" ∨ sl = "" then none
      else some (mkFilmRecord nm sl it.ratingText)
    | _, _ => none
  else none

/-- One listing page: whether `ul.grid` exists, and its items. -/
structure PageInput where
  gridPresent : Bool
  items : List RawItem
  deriving DecidableEq

/-- Records contributed by one listing page: none when the grid
container is missing (the page is skipped), otherwise every
successfully parsed item, in page order. -/
def parsePage (p : PageInput) : List FilmRecord :=
  if p.gridPresent then p.items.filterMap parseFilm else []

/-- Where the single fatal exception of a run, if any, strikes:
`launch` while creating the browser session (before the profile is
stored), `root` while loading the listing root (before `totalPages` is
determined), or `page k` during iteration `k + 1` of the page loop,
after `k` full iterations. -/
inductive FailPoint
  | launch (msg : String)
  | root (msg : String)
  | page (completed : Nat) (msg : String)
  deriving DecidableEq

/-- The film records accumulated once the first `k` pages have been
processed. -/
def dataAfter (pages : Nat → PageInput) (k : Nat) : List FilmRecord :=
  ((List.range k).map (fun j => parsePage (pages j))).flatten

/-- The job right after `job.status = "in-progress"`. -/
def jobInProgress : Job := { initialJob with status := JobStatus.inProgress }

/-- The job right after `job.profileData = await scrapeProfile(...)`. -/
def jobWithProfile (profile : ProfileSummary) : Job :=
  { jobInProgress with profileData := some profile }

/-- The job right after `job.totalPages = totalPages`. -/
def jobWithPages (texts : List String) (profile : ProfileSummary) : Job :=
  { jobWithProfile profile with totalPages := totalPagesOf texts }

/-- The job at the end of page iteration `k + 1`: the page's records
appended, then `job.progress = currentPage / totalPages`. -/
def pageState (texts : List String) (pages : Nat → PageInput)
    (profile : ProfileSummary) (k : Nat) : Job :=
  { jobWithPages texts profile with
    progress := ((k + 1 : Nat) : ℚ) / ((totalPagesOf texts : Int) : ℚ)
    data := dataAfter pages (k + 1) }

/-- Number of page-loop iterations a run completes: all `totalPages`
of them (clamped at 0 for a non-positive parse), or the pages finished
before the fatal exception. -/
def execOf (texts : List String) (fail : Option FailPoint) : Nat :=
  match fail with
  | some (.page k _) => min k (totalPagesOf texts).toNat
  | _ => (totalPagesOf texts).toNat

/-- The last in-progress state of a run that reached the page loop. -/
def lastRunning (texts : List String) (pages : Nat → PageInput)
    (profile : ProfileSummary) (fail : Option FailPoint) : Job :=
  if execOf texts fail = 0 then jobWithPages texts profile
  else pageState texts pages profile (execOf texts fail - 1)

/-- The terminal state of a run that reached the page loop. -/
def terminalJob (texts : List String) (pages : Nat → PageInput)
    (profile : ProfileSummary) (fail : Option FailPoint) : Job :=
  match fail with
  | some (.page k msg) =>
    if k < (totalPagesOf texts).toNat then
      { lastRunning texts pages profile fail with
        status := JobStatus.failed, error := some msg }
    else
      { lastRunning texts pages profile fail with status := JobStatus.completed }
  | _ => { lastRunning texts pages profile fail with status := JobStatus.completed }

/-- States of one job over a whole `startScraping` run, in store order:
creation (`pending`), the `in-progress` transition, the profile store,
the `totalPages` store, one state per completed page iteration, and the
terminal transition.  `texts` are the pagination-control texts of the
first listing page, `pages k` the content of page `k + 1`, `profile`
the summary returned by `scrapeProfile` (which never throws), and
`fail` the fatal exception, if any. -/
def jobTrace (texts : List String) (pages : Nat → PageInput)
    (profile : ProfileSummary) (fail : Option FailPoint) : List Job :=
  match fail with
  | some (.launch msg) =>
    [initialJob, jobInProgress,
     { jobInProgress with status := JobStatus.failed, error := some msg }]
  | some (.root msg) =>
    [initialJob, jobInProgress, jobWithProfile profile,
     { jobWithProfile profile with status := JobStatus.failed, error := some msg }]
  | _ =>
    [initialJob, jobInProgress, jobWithProfile profile, jobWithPages texts profile] ++
    (List.range (execOf texts fail)).map (pageState texts pages profile) ++
    [terminalJob texts pages profile fail]

/-- The glyph content of a rating text measured in half-star units:
twice the star count plus one for a half glyph (0 for empty text).
`parseRating` always returns this many halves. -/
def halfUnits (s : String) : ℕ :=
  if s = "" then 0 else 2 * starCount s + (if hasHalfStar s then 1 else 0)

/-! ### Helper lemmas -/

theorem parseNameYear_of_none {s : String} (h : yearSuffixMatch s = none) :
    parseNameYear s = (s, none) := by
  simp [parseNameYear, h]

theorem parseNameYear_of_some {s whole y : String}
    (h : yearSuffixMatch s = some (whole, y)) :
    parseNameYear s = (jsTrim ⟨removeFirst s.data whole.data⟩, some y) := by
  simp [parseNameYear, h]

/-- Inversion of the year-suffix matcher: a match decomposes the string
into an arbitrary head followed by whitespace, `(`, four digits, `)`. -/
theorem yearSuffixMatch_some {s whole y : String}
    (h : yearSuffixMatch s = some (whole, y)) :
    ∃ w d1 d2 d3 d4,
      s.data = s.data.take (s.data.length - 7) ++ [w, '(', d1, d2, d3, d4, ')'] ∧
      jsWhite w = true ∧ d1.isDigit = true ∧ d2.isDigit = true ∧
      d3.isDigit = true ∧ d4.isDigit = true ∧
      whole.data = [w, '(', d1, d2, d3, d4, ')'] ∧
      y.data = [d1, d2, d3, d4] := by
  unfold yearSuffixMatch at h
  split at h
  case _ w c1 d1 d2 d3 d4 c2 heq =>
    split at h
    case isTrue hcond =>
      simp only [Bool.and_eq_true, beq_iff_eq] at hcond
      obtain ⟨⟨⟨⟨⟨⟨hw, hc1⟩, h1⟩, h2⟩, h3⟩, h4⟩, hc2⟩ := hcond
      subst hc1; subst hc2
      rw [Option.some.injEq, Prod.mk.injEq] at h
      obtain ⟨hwhole, hy⟩ := h
      refine ⟨w, d1, d2, d3, d4, ?_, hw, h1, h2, h3, h4, ?_, ?_⟩
      · conv_lhs => rw [← List.take_append_drop (s.data.length - 7) s.data, heq]
      · rw [← hwhole]
      · rw [← hy]
    case isFalse => exact absurd h (by simp)
  case _ => exact absurd h (by simp)

/-! ### Claim theorems -/

/-- C3: the rating parser maps a rating text to the count of full-star
glyphs plus 0.5 when a half-star glyph is present, and empty (absent)
text to 0; in particular `"★★★½" ↦ 3.5`, `"" ↦ 0`, `"★★★★★" ↦ 5`. -/
theorem C3_rating_parsing :
    parseRating "★★★½" = 7/2 ∧ parseRating "" = 0 ∧ parseRating "★★★★★" = 5 ∧
    ∀ s : String, parseRating s =
      if s = "" then 0
      else (starCount s : ℚ) + (if hasHalfStar s then 1/2 else 0) := by
  refine ⟨?_, ?_, ?_, fun s => rfl⟩
  · rw [parseRating, if_neg (by decide), show starCount "★★★½" = 3 from by decide,
      show hasHalfStar "★★★½" = true from by decide]
    norm_num
  · rw [parseRating, if_pos rfl]
  · rw [parseRating, if_neg (by decide), show starCount "★★★★★" = 5 from by decide,
      show hasHalfStar "★★★★★" = false from by decide]
    norm_num

/-- C7: every exception during profile extraction is absorbed:
`scrapeProfile` returns (rather than throws) the degraded summary whose
displayName and username are the input identifier, whose
avatarUrl, location and bio are null, and whose four stats are 0,
for every identifier and every raised error. -/
theorem C7_profile_error_absorbed (username msg : String) :
    scrapeProfile username (Except.error msg) =
      { displayName := username, username := username, avatarUrl := none,
        location := none, bio := none,
        stats := { totalFilms := 0, filmsThisYear := 0, following := 0,
                   followers := 0 } } := rfl

/-- C9: the avatar rewrite is a pure pattern substitution: a source URL
with no crop-pattern match is returned completely unchanged; a matching
URL has the first matched segment replaced by
`/avtr-0-1000-0-1000-crop`; an absent avatar element yields an absent
avatarUrl rather than a rewritten one. -/
theorem C9_avatar_rewrite :
    (∀ s : String, cropFind s.data = none → rewriteAvatar s = s) ∧
    (∀ (s : String) (i len : Nat), cropFind s.data = some (i, len) →
      rewriteAvatar s =
        ⟨s.data.take i ++ ("/avtr-0-1000-0-1000-crop").data ++
          s.data.drop (i + len)⟩) ∧
    rewriteAvatar "https://a.ltrbxd.com/resized/avtr-123-45-6-789-crop.jpg" =
      "https://a.ltrbxd.com/resized/avtr-0-1000-0-1000-crop.jpg" ∧
    (∀ (username : String) (p : ProfilePage), p.avatarSrc = none →
      (extractProfile username p).avatarUrl = none) := by
  refine ⟨?_, ?_, by decide, ?_⟩
  · intro s h; simp [rewriteAvatar, h]
  · intro s i len h; simp [rewriteAvatar, h]
  · intro u p h; simp [extractProfile, h]

/-- Witness for C9, at a non-matching URL, a matching URL, and a
profile page without an avatar element. -/
theorem C9_avatar_rewrite_witness :
    rewriteAvatar "https://letterboxd.com/u/" = "https://letterboxd.com/u/" ∧
    rewriteAvatar "https://a.ltrbxd.com/resized/avtr-123-45-6-789-crop.jpg" =
      ⟨("https://a.ltrbxd.com/resized/avtr-123-45-6-789-crop.jpg").data.take 28 ++
        ("/avtr-0-1000-0-1000-crop").data ++
        ("https://a.ltrbxd.com/resized/avtr-123-45-6-789-crop.jpg").data.drop (28 + 23)⟩ ∧
    (extractProfile "alice"
        { displayNameText := "Alice", tooltipUsername := none, avatarSrc := none,
          locationText := "", bioText := "", totalFilmsText := "",
          filmsThisYearText := "", followingText := "", followersText := "" }).avatarUrl
      = none :=
  ⟨C9_avatar_rewrite.1 "https://letterboxd.com/u/" (by decide),
   C9_avatar_rewrite.2.1 "https://a.ltrbxd.com/resized/avtr-123-45-6-789-crop.jpg"
     28 23 (by decide),
   C9_avatar_rewrite.2.2.2 "alice" _ rfl⟩

/-- C10: the year extraction fires only when the combined string ends
with a whitespace character followed by an exactly-four-digit
parenthesized year; with no such suffix, year is null and name keeps
the full combined string unmodified; in particular `"Arrival(2016)"`
(no space) and `"Movie (99)"` (not four digits) are left whole. -/
theorem C10_year_suffix_only :
    parseNameYear "Arrival(2016)" = ("Arrival(2016)", none) ∧
    parseNameYear "Movie (99)" = ("Movie (99)", none) ∧
    (∀ s : String, (parseNameYear s).2 ≠ none →
      ∃ w d1 d2 d3 d4,
        s.data = s.data.take (s.data.length - 7) ++ [w, '(', d1, d2, d3, d4, ')'] ∧
        jsWhite w = true ∧ d1.isDigit = true ∧ d2.isDigit = true ∧
        d3.isDigit = true ∧ d4.isDigit = true) ∧
    (∀ s : String, yearSuffixMatch s = none → parseNameYear s = (s, none)) := by
  refine ⟨by decide, by decide, ?_, fun s h => parseNameYear_of_none h⟩
  intro s h
  match hm : yearSuffixMatch s with
  | none => rw [parseNameYear_of_none hm] at h; exact absurd rfl h
  | some (whole, y) =>
    obtain ⟨w, d1, d2, d3, d4, hdec, hw, h1, h2, h3, h4, _, _⟩ :=
      yearSuffixMatch_some hm
    exact ⟨w, d1, d2, d3, d4, hdec, hw, h1, h2, h3, h4⟩

/-- Witness for C10: a string with the year suffix does decompose, and
a string without one passes through. -/
theorem C10_year_suffix_only_witness :
    (∃ w d1 d2 d3 d4,
      ("Arrival (2016)").data =
        ("Arrival (2016)").data.take (("Arrival (2016)").data.length - 7) ++
          [w, '(', d1, d2, d3, d4, ')'] ∧
      jsWhite w = true ∧ d1.isDigit = true ∧ d2.isDigit = true ∧
      d3.isDigit = true ∧ d4.isDigit = true) ∧
    parseNameYear "Arrival" = ("Arrival", none) :=
  ⟨C10_year_suffix_only.2.2.1 "Arrival (2016)" (by decide),
   C10_year_suffix_only.2.2.2 "Arrival" (by decide)⟩

/-- C4 counterexample: the code removes the FIRST occurrence of the
matched text, not the trailing one: on `"X (2016)Y (2016)"` the name
becomes `"XY (2016)"`, while the claim's "remainder after stripping the
trailing suffix, trimmed" is `"X (2016)Y"`. -/
theorem C4_counterexample :
    parseNameYear "X (2016)Y (2016)" = ("XY (2016)", some "2016") ∧
    ("XY (2016)" : String) ≠ "X (2016)Y" := by decide

/-- C4 amended: the parser strips the first occurrence of the matched
`" (YYYY)"` text and trims; whenever that first occurrence is the
trailing one (in particular when the fragment occurs only once), the
name is the remainder of stripping the trailing suffix, trimmed, and
the year is the four digits; `"Arrival (2016)" ↦ ("Arrival", "2016")`
and `"Arrival"` keeps year absent with name unchanged. -/
theorem C4_title_year_parsing :
    parseNameYear "Arrival (2016)" = ("Arrival", some "2016") ∧
    parseNameYear "Arrival" = ("Arrival", none) ∧
    (∀ s whole y : String, yearSuffixMatch s = some (whole, y) →
      firstIdx whole.data s.data = some (s.data.length - 7) →
      parseNameYear s = (jsTrim ⟨s.data.take (s.data.length - 7)⟩, some y)) := by
  refine ⟨by decide, by decide, ?_⟩
  intro s whole y hm hfi
  obtain ⟨w, d1, d2, d3, d4, hdec, _, _, _, _, _, hwhole, _⟩ := yearSuffixMatch_some hm
  have hlen7 : whole.data.length = 7 := by rw [hwhole]; rfl
  have hslen : 7 ≤ s.data.length := by
    have hl := congrArg List.length hdec
    simp only [List.length_append, List.length_take, List.length_cons,
      List.length_nil] at hl
    omega
  have hrm : removeFirst s.data whole.data = s.data.take (s.data.length - 7) := by
    simp only [removeFirst, hfi, hlen7]
    rw [show s.data.length - 7 + 7 = s.data.length from by omega,
      List.drop_length, List.append_nil]
  rw [parseNameYear_of_some hm, hrm]

/-- Witness for C4 at `"Arrival (2016)"`. -/
theorem C4_title_year_parsing_witness :
    parseNameYear "Arrival (2016)" =
      (jsTrim ⟨("Arrival (2016)").data.take (("Arrival (2016)").data.length - 7)⟩,
        some "2016") :=
  C4_title_year_parsing.2.2 "Arrival (2016)" " (2016)" "2016" (by decide) (by decide)

/-- Any rating the crawler computes is a whole number of half-star
units. -/
theorem parseRating_halfUnits (s : String) :
    parseRating s = (halfUnits s : ℚ) / 2 := by
  by_cases hs : s = ""
  · simp [parseRating, halfUnits, hs]
  · rw [parseRating, if_neg hs, halfUnits, if_neg hs]
    by_cases hh : hasHalfStar s
    · rw [if_pos hh, if_pos hh]; push_cast; ring
    · rw [if_neg hh, if_neg hh]; push_cast; ring

/-- Every record `parseFilm` emits carries the parsed rating of its
item's rating text. -/
theorem parseFilm_rating {it : RawItem} {r : FilmRecord}
    (h : parseFilm it = some r) : r.Rating = parseRating it.ratingText := by
  rcases it with ⟨cp, nmo, slo, rt⟩
  cases cp
  case false => simp [parseFilm] at h
  case true =>
    cases nmo with
    | none => simp [parseFilm] at h
    | some nm =>
      cases slo with
      | none => simp [parseFilm] at h
      | some sl =>
        by_cases he : nm = "" ∨ sl = ""
        · simp [parseFilm, he] at h
        · simp [parseFilm, he] at h
          rw [← h]
          rfl

/-- C6 counterexample: an arbitrary rating text may carry more than
five star glyphs; six stars produce a record whose Rating is 6,
outside [0, 5]. -/
theorem C6_counterexample :
    (parseFilm { containerPresent := true, itemName := some "A",
                 itemSlug := some "/film/a/", ratingText := "★★★★★★" }).map
        FilmRecord.Rating = some (parseRating "★★★★★★") ∧
    parseRating "★★★★★★" = 6 ∧ ¬ parseRating "★★★★★★" ≤ 5 := by
  have h6 : parseRating "★★★★★★" = 6 := by
    rw [parseRating, if_neg (by decide),
      show starCount "★★★★★★" = 6 from by decide,
      show hasHalfStar "★★★★★★" = false from by decide]
    norm_num
  refine ⟨rfl, h6, by rw [h6]; norm_num⟩

/-- C6 amended: every FilmRecord the crawler appends has a Rating that
is a non-negative multiple of 0.5 (star count plus half-star bit, in
half units); it lies within [0, 5] whenever the rating text carries at
most ten half-star units, which holds for every rating the site
renders, but not for arbitrary text. -/
theorem C6_rating_invariant (it : RawItem) (r : FilmRecord)
    (h : parseFilm it = some r) :
    0 ≤ r.Rating ∧ (∃ m : ℕ, r.Rating = (m : ℚ) / 2) ∧
    (halfUnits it.ratingText ≤ 10 → r.Rating ≤ 5) := by
  have hr := parseFilm_rating h
  rw [hr, parseRating_halfUnits it.ratingText]
  refine ⟨by positivity, ⟨_, rfl⟩, ?_⟩
  intro hb
  have hq : ((halfUnits it.ratingText : ℕ) : ℚ) ≤ 10 := by exact_mod_cast hb
  linarith

/-- Witness for C6 on a concrete parsed item. -/
theorem C6_rating_invariant_witness :
    0 ≤ (mkFilmRecord "A" "/film/a/" "★★★½").Rating ∧
    (∃ m : ℕ, (mkFilmRecord "A" "/film/a/" "★★★½").Rating = (m : ℚ) / 2) ∧
    (halfUnits "★★★½" ≤ 10 →
      (mkFilmRecord "A" "/film/a/" "★★★½").Rating ≤ 5) :=
  C6_rating_invariant
    { containerPresent := true, itemName := some "A",
      itemSlug := some "/film/a/", ratingText := "★★★½" }
    (mkFilmRecord "A" "/film/a/" "★★★½") rfl

theorem lastRunning_totalPages (texts : List String) (pages : Nat → PageInput)
    (profile : ProfileSummary) (fail : Option FailPoint) :
    (lastRunning texts pages profile fail).totalPages = totalPagesOf texts := by
  unfold lastRunning
  split <;> rfl

theorem terminalJob_totalPages (texts : List String) (pages : Nat → PageInput)
    (profile : ProfileSummary) (fail : Option FailPoint) :
    (terminalJob texts pages profile fail).totalPages = totalPagesOf texts := by
  unfold terminalJob
  split
  · split
    · exact lastRunning_totalPages ..
    · exact lastRunning_totalPages ..
  · exact lastRunning_totalPages ..

/-- C5: totalPages is determined exactly once, from the last entry of
the pagination list on the first page — absent list or unparsable text
gives 1, otherwise the parsed number — and over every run trace the
stored totalPages is the initial 1 up to the point of determination and
the determined value from then on, never changing again. -/
theorem C5_totalPages :
    totalPagesOf [] = 1 ∧
    (∀ (texts : List String) (lastText : String),
      texts.getLast? = some lastText → jsParseInt (jsTrim lastText) = none →
      totalPagesOf texts = 1) ∧
    (∀ (texts : List String) (lastText : String) (n : Int),
      texts.getLast? = some lastText → jsParseInt (jsTrim lastText) = some n →
      totalPagesOf texts = n) ∧
    (∀ (texts : List String) (pages : Nat → PageInput) (profile : ProfileSummary)
      (fail : Option FailPoint),
      ∃ a b, (jobTrace texts pages profile fail).map Job.totalPages =
        List.replicate a 1 ++ List.replicate b (totalPagesOf texts)) := by
  refine ⟨rfl, ?_, ?_, ?_⟩
  · intro texts lastText hl hp
    simp [totalPagesOf, hl, hp]
  · intro texts lastText n hl hp
    simp [totalPagesOf, hl, hp]
  · intro texts pages profile fail
    match fail with
    | some (.launch msg) =>
      exact ⟨3, 0, by simp [jobTrace, jobInProgress, initialJob]⟩
    | some (.root msg) =>
      exact ⟨4, 0, by simp [jobTrace, jobWithProfile, jobInProgress, initialJob,
        List.replicate_succ]⟩
    | some (.page k msg) =>
      refine ⟨3, execOf texts (some (.page k msg)) + 2, ?_⟩
      simp only [jobTrace, List.map_append, List.map_cons, List.map_nil, List.map_map]
      rw [show (Job.totalPages ∘ pageState texts pages profile) =
          fun _ => totalPagesOf texts from rfl]
      rw [List.map_const', List.length_range, terminalJob_totalPages]
      conv_rhs => rw [show execOf texts (some (FailPoint.page k msg)) + 2 =
        (execOf texts (some (FailPoint.page k msg)) + 1) + 1 from rfl,
        List.replicate_succ, List.replicate_succ']
      simp [jobWithPages, jobWithProfile, jobInProgress, initialJob,
        List.replicate_succ]
      rw [← List.replicate_succ', ← List.replicate_succ]
    | none =>
      refine ⟨3, execOf texts none + 2, ?_⟩
      simp only [jobTrace, List.map_append, List.map_cons, List.map_nil, List.map_map]
      rw [show (Job.totalPages ∘ pageState texts pages profile) =
          fun _ => totalPagesOf texts from rfl]
      rw [List.map_const', List.length_range, terminalJob_totalPages]
      conv_rhs => rw [show execOf texts none + 2 = (execOf texts none + 1) + 1 from rfl,
        List.replicate_succ, List.replicate_succ']
      simp [jobWithPages, jobWithProfile, jobInProgress, initialJob,
        List.replicate_succ]
      rw [← List.replicate_succ', ← List.replicate_succ]

/-- Witness for C5: an unparsable last entry gives 1, a numeric one its
value. -/
theorem C5_totalPages_witness :
    totalPagesOf ["x"] = 1 ∧ totalPagesOf ["2"] = 2 :=
  ⟨C5_totalPages.2.1 ["x"] "x" rfl (by decide),
   C5_totalPages.2.2.1 ["2"] "2" 2 rfl (by decide)⟩

theorem digitChar_toNat_sub : ∀ d : Nat, d < 10 → (Nat.digitChar d).toNat - 48 = d := by
  decide

theorem digsVal_natDigs : ∀ fuel n : Nat, n < fuel → digsVal (natDigs fuel n) = n := by
  intro fuel
  induction fuel with
  | zero => intro n h; omega
  | succ f ih =>
    intro n h
    by_cases h10 : n < 10
    · rw [natDigs, if_pos h10]
      simp [digsVal, digitChar_toNat_sub n h10]
    · rw [natDigs, if_neg h10, digsVal, ih (n / 10) (by omega),
        digitChar_toNat_sub (n % 10) (by omega)]
      omega

theorem natToString_inj {a b : Nat} (h : natToString a = natToString b) : a = b := by
  have h1 : (natDigs (a + 1) a).reverse = (natDigs (b + 1) b).reverse :=
    congrArg String.data h
  have h2 := congrArg List.reverse h1
  simp only [List.reverse_reverse] at h2
  have h3 := digsVal_natDigs (a + 1) a (by omega)
  rw [h2, digsVal_natDigs (b + 1) b (by omega)] at h3
  omega

theorem mkJobId_inj {a b : Nat} (h : mkJobId a = mkJobId b) : a = b := by
  apply natToString_inj
  have h1 := congrArg String.data h
  simp only [mkJobId, String.data_append] at h1
  exact congrArg String.mk (List.append_cancel_left h1)

/-- C2 counterexample: two distinct submission requests served in the
same millisecond observe the same `Date.now()` value and receive the
SAME job id (which also silently overwrites the first job in the map),
so ids are not unique for the lifetime of the store. -/
theorem C2_counterexample :
    ("alice" : String) ≠ "bob" ∧
    (submitHandler [] "alice" 1700).1 =
      SubmitReply.ok { jobId := "job_1700", status := .pending,
                       message := "Scraping started" } ∧
    (submitHandler (submitHandler [] "alice" 1700).2 "bob" 1700).1 =
      SubmitReply.ok { jobId := "job_1700", status := .pending,
                       message := "Scraping started" } := by
  refine ⟨by decide, by decide, by decide⟩

/-- C2 amended: submissions that observe distinct `Date.now()` values
receive distinct job ids, and every valid submission response carries
the fresh id with status `pending`; uniqueness holds only up to
timestamp collisions. -/
theorem C2_submission_ids (store1 store2 : Store) (u1 u2 : String) (t1 t2 : Nat)
    (h1 : u1 ≠ "") (h2 : u2 ≠ "") (ht : t1 ≠ t2) :
    (submitHandler store1 u1 t1).1 =
      SubmitReply.ok { jobId := mkJobId t1, status := .pending,
                       message := "Scraping started" } ∧
    (submitHandler store2 u2 t2).1 =
      SubmitReply.ok { jobId := mkJobId t2, status := .pending,
                       message := "Scraping started" } ∧
    mkJobId t1 ≠ mkJobId t2 := by
  refine ⟨by rw [submitHandler, if_neg h1], by rw [submitHandler, if_neg h2], ?_⟩
  intro h
  exact ht (mkJobId_inj h)

/-- Witness for C2 at timestamps 0 and 1. -/
theorem C2_submission_ids_witness :
    (submitHandler [] "alice" 0).1 =
      SubmitReply.ok { jobId := mkJobId 0, status := .pending,
                       message := "Scraping started" } ∧
    (submitHandler [] "bob" 1).1 =
      SubmitReply.ok { jobId := mkJobId 1, status := .pending,
                       message := "Scraping started" } ∧
    mkJobId 0 ≠ mkJobId 1 :=
  C2_submission_ids [] [] "alice" "bob" 0 1 (by decide) (by decide) (by decide)

@[simp] theorem initialJob_progress : initialJob.progress = 0 := rfl

@[simp] theorem jobInProgress_progress : jobInProgress.progress = 0 := rfl

@[simp] theorem jobWithProfile_progress (profile : ProfileSummary) :
    (jobWithProfile profile).progress = 0 := rfl

@[simp] theorem jobWithPages_progress (texts : List String) (profile : ProfileSummary) :
    (jobWithPages texts profile).progress = 0 := rfl

@[simp] theorem pageState_progress (texts : List String) (pages : Nat → PageInput)
    (profile : ProfileSummary) (k : Nat) :
    (pageState texts pages profile k).progress =
      ((k + 1 : Nat) : ℚ) / ((totalPagesOf texts : Int) : ℚ) := rfl

@[simp] theorem pageState_data (texts : List String) (pages : Nat → PageInput)
    (profile : ProfileSummary) (k : Nat) :
    (pageState texts pages profile k).data = dataAfter pages (k + 1) := rfl

theorem execOf_le (texts : List String) (fail : Option FailPoint) :
    execOf texts fail ≤ (totalPagesOf texts).toNat := by
  unfold execOf
  split <;> omega

theorem terminalJob_progress (texts : List String) (pages : Nat → PageInput)
    (profile : ProfileSummary) (fail : Option FailPoint) :
    (terminalJob texts pages profile fail).progress =
      (lastRunning texts pages profile fail).progress := by
  unfold terminalJob
  split
  · split <;> rfl
  · rfl

theorem terminalJob_data (texts : List String) (pages : Nat → PageInput)
    (profile : ProfileSummary) (fail : Option FailPoint) :
    (terminalJob texts pages profile fail).data =
      (lastRunning texts pages profile fail).data := by
  unfold terminalJob
  split
  · split <;> rfl
  · rfl

theorem lastRunning_cases (texts : List String) (pages : Nat → PageInput)
    (profile : ProfileSummary) (fail : Option FailPoint) :
    lastRunning texts pages profile fail = jobWithPages texts profile ∧
      execOf texts fail = 0 ∨
    lastRunning texts pages profile fail =
        pageState texts pages profile (execOf texts fail - 1) ∧
      execOf texts fail ≠ 0 := by
  unfold lastRunning
  split
  · exact Or.inl ⟨rfl, by assumption⟩
  · exact Or.inr ⟨rfl, by assumption⟩

theorem lastRunning_data (texts : List String) (pages : Nat → PageInput)
    (profile : ProfileSummary) (fail : Option FailPoint) :
    (lastRunning texts pages profile fail).data =
      dataAfter pages (execOf texts fail) := by
  rcases lastRunning_cases texts pages profile fail with ⟨heq, h0⟩ | ⟨heq, hne⟩
  · rw [heq, h0]; rfl
  · rw [heq, pageState_data, show execOf texts fail - 1 + 1 = execOf texts fail from by omega]

/-- C1 counterexample: a failed job with accumulated records is
polleable, but the status endpoint answers with an EMPTY data array
(records are only exposed for a completed job), not with the
accumulated FilmRecords the claim promises. -/
theorem C1_counterexample :
    getStatusHandler
        [("job_0",
          { status := JobStatus.failed,
            data := [mkFilmRecord "A" "/film/a/" ""],
            profileData := none, progress := 0, totalPages := 3,
            error := some "net::ERR_FAILED" })] "job_0" =
      StatusReply.ok
        { status := JobStatus.failed, progress := 0, totalPages := 3,
          data := [], profileData := none, error := some "net::ERR_FAILED" } ∧
    ([] : List FilmRecord) ≠ [mkFilmRecord "A" "/film/a/" ""] := by
  exact ⟨rfl, by simp⟩

/-- C1 amended: a failed job is still polleable: the status endpoint
returns 200 with status `failed`, the job's progress, totalPages,
profileData and its non-null error string, but with an EMPTY data
array — the records accumulated before the failing step are retained on
the job object in the store (the run's terminal state keeps every
record of the pages completed before the fatal exception, and the error
message), yet they are only exposed once a job completes. -/
theorem C1_failed_job_poll (store : Store) (jobId : String) (job : Job)
    (hid : jobId ≠ "") (hget : storeGet store jobId = some job)
    (hst : job.status = JobStatus.failed) :
    getStatusHandler store jobId =
      StatusReply.ok
        { status := JobStatus.failed, progress := job.progress,
          totalPages := job.totalPages, data := [],
          profileData := job.profileData, error := job.error } ∧
    (∀ (texts : List String) (pages : Nat → PageInput) (profile : ProfileSummary)
        (k : Nat) (msg : String), k < (totalPagesOf texts).toNat →
      (jobTrace texts pages profile (some (.page k msg))).getLast? =
        some (terminalJob texts pages profile (some (.page k msg))) ∧
      (terminalJob texts pages profile (some (.page k msg))).status =
        JobStatus.failed ∧
      (terminalJob texts pages profile (some (.page k msg))).data =
        dataAfter pages k ∧
      (terminalJob texts pages profile (some (.page k msg))).error = some msg) := by
  constructor
  · simp [getStatusHandler, hid, hget, hst]
  · intro texts pages profile k msg hk
    have hterm : terminalJob texts pages profile (some (.page k msg)) =
        { lastRunning texts pages profile (some (.page k msg)) with
          status := JobStatus.failed, error := some msg } := by
      have h0 : terminalJob texts pages profile (some (.page k msg)) =
          if k < (totalPagesOf texts).toNat then
            { lastRunning texts pages profile (some (.page k msg)) with
              status := JobStatus.failed, error := some msg }
          else
            { lastRunning texts pages profile (some (.page k msg)) with
              status := JobStatus.completed } := rfl
      rw [h0, if_pos hk]
    have hexec : execOf texts (some (.page k msg)) =
        min k (totalPagesOf texts).toNat := rfl
    refine ⟨?_, ?_, ?_, ?_⟩
    · show ([initialJob, jobInProgress, jobWithProfile profile,
          jobWithPages texts profile] ++
        (List.range (execOf texts (some (.page k msg)))).map
          (pageState texts pages profile) ++
        [terminalJob texts pages profile (some (.page k msg))]).getLast? = _
      exact (List.getLast?_append_of_ne_nil _ (by simp)).trans rfl
    · rw [hterm]
    · rw [terminalJob_data, lastRunning_data, hexec,
        show min k (totalPagesOf texts).toNat = k from by omega]
    · rw [hterm]

/-- Witness for C1: a concrete failed job in the store and a concrete
failing run over a two-page listing. -/
theorem C1_failed_job_poll_witness :
    getStatusHandler
        [("job_0",
          { status := JobStatus.failed, data := [], profileData := none,
            progress := 0, totalPages := 1, error := some "boom" })] "job_0" =
      StatusReply.ok
        { status := JobStatus.failed, progress := 0,
          totalPages := 1, data := [], profileData := none,
          error := some "boom" } ∧
    ((jobTrace ["2"] (fun _ => { gridPresent := true, items := [] })
        (degradedProfile "u") (some (.page 1 "boom"))).getLast? =
      some (terminalJob ["2"] (fun _ => { gridPresent := true, items := [] })
        (degradedProfile "u") (some (.page 1 "boom"))) ∧
     (terminalJob ["2"] (fun _ => { gridPresent := true, items := [] })
        (degradedProfile "u") (some (.page 1 "boom"))).status = JobStatus.failed ∧
     (terminalJob ["2"] (fun _ => { gridPresent := true, items := [] })
        (degradedProfile "u") (some (.page 1 "boom"))).data =
       dataAfter (fun _ => { gridPresent := true, items := [] }) 1 ∧
     (terminalJob ["2"] (fun _ => { gridPresent := true, items := [] })
        (degradedProfile "u") (some (.page 1 "boom"))).error = some "boom") :=
  ⟨(C1_failed_job_poll
      [("job_0",
        { status := JobStatus.failed, data := [], profileData := none,
          progress := 0, totalPages := 1, error := some "boom" })] "job_0"
      { status := JobStatus.failed, data := [], profileData := none,
        progress := 0, totalPages := 1, error := some "boom" }
      (by decide) rfl rfl).1,
   (C1_failed_job_poll
      [("job_0",
        { status := JobStatus.failed, data := [], profileData := none,
          progress := 0, totalPages := 1, error := some "boom" })] "job_0"
      { status := JobStatus.failed, data := [], profileData := none,
        progress := 0, totalPages := 1, error := some "boom" }
      (by decide) rfl rfl).2
     ["2"] (fun _ => { gridPresent := true, items := [] })
     (degradedProfile "u") 1 "boom" (by decide)⟩

theorem totalPages_cast_pos (texts : List String) {k : Nat}
    (h : k < (totalPagesOf texts).toNat) :
    (0 : ℚ) < ((totalPagesOf texts : Int) : ℚ) := by
  have h0 : (0 : Int) < totalPagesOf texts := by omega
  exact_mod_cast h0

theorem pageState_progress_bounds {texts : List String} {pages : Nat → PageInput}
    {profile : ProfileSummary} {k : Nat} (h : k < (totalPagesOf texts).toNat) :
    0 ≤ (pageState texts pages profile k).progress ∧
      (pageState texts pages profile k).progress ≤ 1 := by
  have hpos := totalPages_cast_pos texts h
  have hle : ((k + 1 : Nat) : ℚ) ≤ ((totalPagesOf texts : Int) : ℚ) := by
    have h1 : ((k + 1 : Nat) : Int) ≤ totalPagesOf texts := by omega
    exact_mod_cast h1
  rw [pageState_progress]
  exact ⟨div_nonneg (by positivity) hpos.le, (div_le_one hpos).mpr hle⟩

theorem pageState_progress_le {texts : List String} {pages : Nat → PageInput}
    {profile : ProfileSummary} {k l : Nat} (hkl : k ≤ l)
    (h : l < (totalPagesOf texts).toNat) :
    (pageState texts pages profile k).progress ≤
      (pageState texts pages profile l).progress := by
  have hpos := totalPages_cast_pos texts h
  rw [pageState_progress, pageState_progress]
  refine (div_le_div_iff_of_pos_right hpos).mpr ?_
  exact_mod_cast Nat.succ_le_succ hkl

theorem mainTrace_chain (texts : List String) (pages : Nat → PageInput)
    (profile : ProfileSummary) (fail : Option FailPoint) :
    List.Chain' (fun a b : Job => a.progress ≤ b.progress)
      ([initialJob, jobInProgress, jobWithProfile profile,
        jobWithPages texts profile] ++
       (List.range (execOf texts fail)).map (pageState texts pages profile) ++
       [terminalJob texts pages profile fail]) := by
  have hecap := execOf_le texts fail
  have hterm := terminalJob_progress texts pages profile fail
  rw [List.chain'_append]
  refine ⟨?_, List.chain'_singleton _, ?_⟩
  · rw [List.chain'_append]
    refine ⟨by simp [List.chain'_cons], ?_, ?_⟩
    · rw [List.chain'_map]
      cases he : execOf texts fail with
      | zero => simp
      | succ n =>
        rw [List.chain'_range_succ]
        intro m hm
        refine pageState_progress_le (Nat.le_succ m) ?_
        omega
    · intro x hx y hy
      simp only [List.getLast?_cons_cons, List.getLast?_singleton, Option.mem_def,
        Option.some.injEq] at hx
      subst hx
      cases he : execOf texts fail with
      | zero => rw [he] at hy; simp at hy
      | succ n =>
        rw [he, List.range_succ_eq_map] at hy
        simp only [List.map_cons, List.head?_cons, Option.mem_def,
          Option.some.injEq] at hy
        subst hy
        rw [jobWithPages_progress]
        exact (pageState_progress_bounds (by omega)).1
  · intro x hx y hy
    simp only [List.head?_cons, Option.mem_def, Option.some.injEq] at hy
    subst hy
    rw [hterm]
    rcases lastRunning_cases texts pages profile fail with ⟨heq, h0⟩ | ⟨heq, hne⟩
    · rw [h0] at hx
      simp only [List.range_zero, List.map_nil, List.append_nil,
        List.getLast?_cons_cons, List.getLast?_singleton, Option.mem_def,
        Option.some.injEq] at hx
      subst hx
      rw [heq]
    · obtain ⟨n, hn⟩ : ∃ n, execOf texts fail = n + 1 :=
        ⟨execOf texts fail - 1, by omega⟩
      rw [hn, List.range_succ, List.map_append, List.map_cons, List.map_nil,
        ← List.append_assoc, List.getLast?_concat] at hx
      simp only [Option.mem_def, Option.some.injEq] at hx
      subst hx
      rw [heq, hn, show n + 1 - 1 = n from rfl]

theorem mainTrace_bounds (texts : List String) (pages : Nat → PageInput)
    (profile : ProfileSummary) (fail : Option FailPoint) :
    ∀ j ∈ ([initialJob, jobInProgress, jobWithProfile profile,
        jobWithPages texts profile] ++
       (List.range (execOf texts fail)).map (pageState texts pages profile) ++
       [terminalJob texts pages profile fail]),
      0 ≤ j.progress ∧ j.progress ≤ 1 := by
  have hecap := execOf_le texts fail
  have hterm := terminalJob_progress texts pages profile fail
  intro j hj
  rw [List.mem_append, List.mem_append] at hj
  rcases hj with (hA | hB) | hc
  · simp only [List.mem_cons, List.not_mem_nil, or_false] at hA
    rcases hA with rfl | rfl | rfl | rfl
    · exact ⟨by simp, by simp⟩
    · exact ⟨by simp, by simp⟩
    · exact ⟨by simp, by simp⟩
    · exact ⟨by simp, by simp⟩
  · obtain ⟨k, hk, rfl⟩ := List.mem_map.mp hB
    rw [List.mem_range] at hk
    exact pageState_progress_bounds (by omega)
  · rw [List.mem_singleton] at hc
    subst hc
    rw [hterm]
    rcases lastRunning_cases texts pages profile fail with ⟨heq, h0⟩ | ⟨heq, hne⟩
    · rw [heq]; exact ⟨by simp, by simp⟩
    · rw [heq]
      exact pageState_progress_bounds (by omega)

/-- C8: over the whole sequence of states a job passes through in a
run, progress starts at 0, never decreases, and stays within [0, 1];
each per-page update sets progress to currentPage / totalPages with
1 ≤ currentPage ≤ totalPages. -/
theorem C8_progress (texts : List String) (pages : Nat → PageInput)
    (profile : ProfileSummary) (fail : Option FailPoint) :
    (jobTrace texts pages profile fail).head? = some initialJob ∧
    initialJob.progress = 0 ∧
    List.Chain' (fun a b : Job => a.progress ≤ b.progress)
      (jobTrace texts pages profile fail) ∧
    (∀ j ∈ jobTrace texts pages profile fail,
      0 ≤ j.progress ∧ j.progress ≤ 1) ∧
    (∀ k, k < execOf texts fail →
      (pageState texts pages profile k).progress =
        ((k + 1 : Nat) : ℚ) / ((totalPagesOf texts : Int) : ℚ) ∧
      1 ≤ (k + 1 : Int) ∧ ((k + 1 : Nat) : Int) ≤ totalPagesOf texts) := by
  have hecap := execOf_le texts fail
  refine ⟨?_, rfl, ?_, ?_, ?_⟩
  · cases fail with
    | none => rfl
    | some f => cases f <;> rfl
  · match fail with
    | some (.launch msg) =>
      show List.Chain' _ [initialJob, jobInProgress,
        { jobInProgress with status := JobStatus.failed, error := some msg }]
      simp [List.chain'_cons]
    | some (.root msg) =>
      show List.Chain' _ [initialJob, jobInProgress, jobWithProfile profile,
        { jobWithProfile profile with
          status := JobStatus.failed, error := some msg }]
      simp [List.chain'_cons]
    | some (.page k msg) => exact mainTrace_chain texts pages profile _
    | none => exact mainTrace_chain texts pages profile _
  · match fail with
    | some (.launch msg) =>
      intro j hj
      have hj' : j ∈ [initialJob, jobInProgress,
          { jobInProgress with status := JobStatus.failed, error := some msg }] := hj
      simp only [List.mem_cons, List.not_mem_nil, or_false] at hj'
      rcases hj' with rfl | rfl | rfl
      · exact ⟨by simp, by simp⟩
      · exact ⟨by simp, by simp⟩
      · exact ⟨by simp, by simp⟩
    | some (.root msg) =>
      intro j hj
      have hj' : j ∈ [initialJob, jobInProgress, jobWithProfile profile,
          { jobWithProfile profile with
            status := JobStatus.failed, error := some msg }] := hj
      simp only [List.mem_cons, List.not_mem_nil, or_false] at hj'
      rcases hj' with rfl | rfl | rfl | rfl
      · exact ⟨by simp, by simp⟩
      · exact ⟨by simp, by simp⟩
      · exact ⟨by simp, by simp⟩
      · exact ⟨by simp, by simp⟩
    | some (.page k msg) => exact mainTrace_bounds texts pages profile _
    | none => exact mainTrace_bounds texts pages profile _
  · intro k hk
    have hcap : k < (totalPagesOf texts).toNat := by omega
    refine ⟨rfl, by omega, by omega⟩

/-- Witness for C8: a concrete full run over a two-page listing, with
the first per-page update instantiated. -/
theorem C8_progress_witness :
    (pageState ["2"] (fun _ => { gridPresent := true, items := [] })
        (degradedProfile "u") 0).progress =
      ((0 + 1 : Nat) : ℚ) / ((totalPagesOf ["2"] : Int) : ℚ) ∧
    1 ≤ (0 + 1 : Int) ∧ ((0 + 1 : Nat) : Int) ≤ totalPagesOf ["2"] :=
  (C8_progress ["2"] (fun _ => { gridPresent := true, items := [] })
    (degradedProfile "u") none).2.2.2.2 0 (by decide)

end Letterboxd
